import Mathlib

/-!
Verification of the Kelemetry correlation pipeline against its specification.

Each Go source file is shallowly embedded as pure Lean definitions:
stateful handlers become functions from explicit inputs (including oracle
functions standing for external collaborators such as the diff cache
back-end, the regular-expression matcher, or the trace store) to a result
structure recording the response, the log entries appended and the number
of cache queries performed.
-/

namespace Kelemetry

/-! ### Shared constants

Verb constants from `pkg/audit` (`audit.VerbCreate` etc.).  The package
itself is not in the sources under verification; the string values are the
Kubernetes audit verbs named throughout the spec. -/

def verbCreate : String := "create"

def verbUpdate : String := "update"

def verbPatch : String := "patch"

def verbDelete : String := "delete"

/-- Modelled from the spec: `diffcache.VerbToSnapshotName` of the missing
`pkg/diff/cache` package maps create to the `creation` snapshot and delete
to the `deletion` snapshot (spec section 4.6 and the Snapshot data model,
`snapshotName ∈ \x7bcreation, deletion\x7d`). -/
def verbToSnapshotName (verb : String) : Option String :=
  if verb = verbCreate then some "creation"
  else if verb = verbDelete then some "deletion"
  else none

/-- Modelled from the spec: log-type labels of the missing
`pkg/util/zconstants` package.  Only distinctness of the labels matters. -/
def logTypeRealError : String := "realError"

def logTypeRealVerbose : String := "realVerbose"

def logTypeKelemetryError : String := "kelemetryError"

def logTypeObjectDiff : String := "objectDiff"

def logTypeObjectSnapshot : String := "objectSnapshot"

/-! ### Diff decorator (`pkg/diff/decorator/decorator.go`) -/

structure StatusCause where
  causeType : String
  message : String
deriving DecidableEq

structure StatusDetails where
  causes : List StatusCause
deriving DecidableEq

/-- Relevant fields of `metav1.Status` carried in `Message.ResponseStatus`. -/
structure ResponseStatus where
  code : Int
  reason : String
  message : String
  details : Option StatusDetails
deriving DecidableEq

/-- Relevant fields of `auditv1.ObjectReference`. -/
structure AuditObjectRef where
  apiGroup : String
  apiVersion : String
  resource : String
  ns : String
  name : String
  resourceVersion : String
  subresource : String
  uid : String
deriving DecidableEq

/-- Decode outcome of `json.Unmarshal(message.ResponseObject.Raw, &respObj)`
into a `*metav1.PartialObjectMetadata`: the raw bytes may be invalid JSON,
the JSON literal `null` (leaving `respObj` nil without error), or an object
carrying a `resourceVersion`. -/
inductive RawObject where
  | undecodable
  | nullObject
  | objectMeta (resourceVersion : String)
deriving DecidableEq

/-- Fields of `audit.Message` read by the decorator. -/
structure Message where
  verb : String
  responseStatus : Option ResponseStatus
  objectRef : Option AuditObjectRef
  responseObject : Option RawObject
deriving DecidableEq

/-- One entry of `diffcmp.DiffList` (`JsonPath`, `Old`, `New`); the old and
new values are modelled as their rendered strings. -/
structure DiffEntry where
  jsonPath : String
  oldVal : String
  newVal : String
deriving DecidableEq

/-- A `diffcache.Patch` as seen by the decorator fetch path. -/
structure CachePatch where
  redacted : Bool
  diffs : List DiffEntry
deriving DecidableEq

/-- A `diffcache.Snapshot` as seen by the decorator fetch path. -/
structure CacheSnapshot where
  redacted : Bool
  value : String
deriving DecidableEq

/-- Oracle for the `diffcache.Cache` back-end used by one decoration:
`fetch oldRv newRv` models `Fetch(ctx, object, oldRv, newRv)` and
`fetchSnapshot name` models `FetchSnapshot(ctx, object, name)` for the
message's object. -/
structure DiffCacheOracle where
  fetch : String → Option String → Option CachePatch
  fetchSnapshot : String → Option CacheSnapshot

/-- Result of `tryDecorate`: the `cacheHitType` outcome string, the log
entries appended to the event as `(logType, message)` pairs, the tag keys
added to the event, and the number of cache queries performed. -/
structure DecorateResult where
  outcome : String
  logs : List (String × String)
  tags : List String
  fetchCalls : Nat
deriving DecidableEq

/-- The `cacheHitType` constants of `decorator.go` with their string values. -/
def cacheHitTypeTrue : String := "true"

def cacheHitTypeFalse : String := "false"

def cacheHitTypeError : String := "failedRequest"

def cacheHitTypeNoObjectRef : String := "noObjectRef"

def cacheHitTypeRawJsonDecode : String := "rawJsonDecodeError"

def cacheHitTypeNoop : String := "noopUpdate"

def cacheHitTypeFiltered : String := "filtered"

def cacheHitTypeSameRv : String := "sameRv"

def cacheHitTypeUndecoratedVerb : String := "undecoratedVerb"

def cacheHitTypeUnsupportedVerb : String := "unsupportedVerb"

/-- The guard `message.ResponseStatus != nil && message.ResponseStatus.Code >= 300`. -/
def isFailedRequest (msg : Message) : Bool :=
  match msg.responseStatus with
  | some st => st.code ≥ 300
  | none => false

/-- Log entries appended on the failed-request path: the status reason and
message, then one entry per cause of the status details when present. -/
def failedRequestLogs (st : ResponseStatus) : List (String × String) :=
  (logTypeRealError, st.reason ++ ": " ++ st.message) ::
    (match st.details with
     | some d => d.causes.map fun c => (logTypeRealError, c.causeType ++ ": " ++ c.message)
     | none => [])

/-- The guard `decoratesResource`: patch events are excluded by policy. -/
def decoratesResource (msg : Message) : Bool :=
  msg.verb ≠ verbPatch

/-- Rendering of a diff value by `fmt.Sprintf("%#v", v)` for string values. -/
def goSharpV (s : String) : String := "\"" ++ s ++ "\""

/-- The log body built by `tryUpdateOnce` from a non-redacted patch:
one `path old -> new` line per diff entry. -/
def diffLogOfPatch (patch : CachePatch) : String :=
  patch.diffs.foldl
    (fun acc d => acc ++ d.jsonPath ++ " " ++ goSharpV d.oldVal ++ " -> " ++ goSharpV d.newVal ++ "\n")
    ""

/-- One fetch attempt of `tryUpdateOnce`: on a hit, the log entries and tag
keys written to the event (the informer-vs-audit latency is recorded as the
"informer latency" tag). -/
def tryUpdateOnce (cache : DiffCacheOracle) (oldRv : String) (newRv : Option String) :
    Option (List (String × String) × List String) :=
  match cache.fetch oldRv newRv with
  | none => none
  | some patch =>
    if patch.redacted then
      some ([(logTypeKelemetryError, "Sensitive object content has been redacted")], [])
    else
      some ([(logTypeObjectDiff, diffLogOfPatch patch)], ["informer latency"])

/-- One fetch attempt of `tryCreateDeleteOnce`: on a hit, the snapshot log
is written unless the snapshot is redacted. -/
def tryCreateDeleteOnce (cache : DiffCacheOracle) (snapshotName : String) :
    Option (List (String × String)) :=
  match cache.fetchSnapshot snapshotName with
  | none => none
  | some snapshot =>
    if snapshot.redacted then some []
    else some [(logTypeObjectSnapshot, snapshot.value)]

/-- The `wait.PollImmediateUntil` loop with a deterministic attempt:
`attempts` is the number of iterations the two deadlines admit.  Returns the
first hit together with the number of attempts consumed. -/
def pollLoop {α : Type} (tryOnce : Option α) (attempts : Nat) : Option α × Nat :=
  match attempts with
  | 0 => (none, 0)
  | n + 1 =>
    match tryOnce with
    | some a => (some a, 1)
    | none =>
      let r := pollLoop tryOnce n
      (r.1, r.2 + 1)

/-- Shallow embedding of `decorator.tryDecorate`.  `attempts` is the retry
budget allowed by the event and total deadlines. -/
def tryDecorate (cache : DiffCacheOracle) (attempts : Nat) (msg : Message) : DecorateResult :=
  if isFailedRequest msg then
    { outcome := cacheHitTypeError
      logs := match msg.responseStatus with
              | some st => failedRequestLogs st
              | none => []
      tags := [], fetchCalls := 0 }
  else
    match msg.objectRef with
    | none => { outcome := cacheHitTypeNoObjectRef, logs := [], tags := [], fetchCalls := 0 }
    | some objectRef =>
      match msg.responseObject with
      | some .undecodable =>
        { outcome := cacheHitTypeRawJsonDecode
          logs := [(logTypeKelemetryError, "Error decoding raw object")]
          tags := [], fetchCalls := 0 }
      | _ =>
        let respObj : Option String :=
          match msg.responseObject with
          | some (.objectMeta rv) => some rv
          | _ => none
        let responseRv := respObj.getD ""
        let hasDiff := msg.verb = verbUpdate ∨ msg.verb = verbPatch
        if hasDiff ∧ respObj.isSome ∧ objectRef.resourceVersion = responseRv then
          { outcome := cacheHitTypeNoop
            logs := [(logTypeRealVerbose, "No-op update")]
            tags := [], fetchCalls := 0 }
        else if ¬ decoratesResource msg then
          { outcome := cacheHitTypeFiltered, logs := [], tags := [], fetchCalls := 0 }
        else if msg.verb = verbUpdate ∨ msg.verb = verbPatch then
          let oldRv := objectRef.resourceVersion
          let newRv : Option String := if responseRv ≠ "" then some responseRv else none
          if newRv = some oldRv then
            { outcome := cacheHitTypeSameRv
              logs := [(logTypeRealVerbose, "No-op update")]
              tags := [], fetchCalls := 0 }
          else
            let polled := pollLoop (tryUpdateOnce cache oldRv newRv) attempts
            match polled.1 with
            | some hit =>
              { outcome := cacheHitTypeTrue, logs := hit.1, tags := hit.2, fetchCalls := polled.2 }
            | none =>
              { outcome := cacheHitTypeFalse, logs := [], tags := [], fetchCalls := polled.2 }
        else if msg.verb = verbCreate ∨ msg.verb = verbDelete then
          match verbToSnapshotName msg.verb with
          | none =>
            { outcome := cacheHitTypeUndecoratedVerb, logs := [], tags := [], fetchCalls := 0 }
          | some snapshotName =>
            let polled := pollLoop (tryCreateDeleteOnce cache snapshotName) attempts
            match polled.1 with
            | some hitLogs =>
              { outcome := cacheHitTypeTrue, logs := hitLogs, tags := [], fetchCalls := polled.2 }
            | none =>
              { outcome := cacheHitTypeFalse, logs := [], tags := [], fetchCalls := polled.2 }
        else
          { outcome := cacheHitTypeUnsupportedVerb, logs := [], tags := [], fetchCalls := 0 }

/-- Cache oracle with no stored data, for concrete evaluations. -/
def emptyCache : DiffCacheOracle :=
  { fetch := fun _ _ => none, fetchSnapshot := fun _ => none }

example :
    tryDecorate emptyCache 3
      { verb := verbUpdate
        responseStatus := some { code := 200, reason := "", message := "", details := none }
        objectRef := some
          { apiGroup := "", apiVersion := "v1", resource := "pods", ns := "default"
            name := "p1", resourceVersion := "5", subresource := "", uid := "u" }
        responseObject := some (.objectMeta "5") } =
      { outcome := cacheHitTypeNoop
        logs := [(logTypeRealVerbose, "No-op update")]
        tags := [], fetchCalls := 0 } := by
  decide

/-! ### Diff API scan handler (`handleScan` in the diff API server file) -/

/-- Lookup of a query parameter by `ctx.Query`, which returns the empty
string when the parameter is absent. -/
def queryParam (params : List (String × String)) (key : String) : String :=
  match params.find? fun p => p.1 = key with
  | some p => p.2
  | none => ""

/-- Digit run parsing underlying `strconv.Atoi`: all characters must be
decimal digits and at least one must be present. -/
def parseNatDigits (cs : List Char) : Option Nat :=
  if cs = [] then none
  else if cs.all fun c => c.isDigit then
    some (cs.foldl (fun acc c => acc * 10 + (c.toNat - 48)) 0)
  else none

/-- Model of `strconv.Atoi`: an optional sign followed by decimal digits. -/
def goAtoi (s : String) : Option Int :=
  match s.data with
  | '-' :: rest => (parseNatDigits rest).map fun n => -(n : Int)
  | '+' :: rest => (parseNatDigits rest).map fun n => (n : Int)
  | cs => (parseNatDigits cs).map fun n => (n : Int)

/-- The limit computed by `handleScan` and passed to `DiffCache.List`:
the handler reads `ctx.Query("100")` (the parameter name is the literal
string "100") and atoi-parses it, keeping 100 on parse failure. -/
def handleScanLimit (params : List (String × String)) : Int :=
  let limitString := queryParam params "100"
  match goAtoi limitString with
  | some parsedLimit => parsedLimit
  | none => 100

/-- Modelled from the spec: the intended scan limit reads a parameter named
`limit` and defaults to 100 when it is absent (spec sections 6 and 9:
"Implementers should default to `limit=100` and read from a parameter named
`limit`"). -/
def handleScanLimitIntended (params : List (String × String)) : Int :=
  match goAtoi (queryParam params "limit") with
  | some parsedLimit => parsedLimit
  | none => 100

/-! ### Audit consumer (`handleItem` in the audit consumer file) -/

def stageResponseComplete : String := "ResponseComplete"

/-- The `supportedVerbs` set of the audit consumer. -/
def supportedVerbs : List String := [verbCreate, verbUpdate, verbDelete, verbPatch]

/-- One consumed audit message together with the outcomes of the external
calls `handleItem` makes: the audit-event filter verdict, the result of
`inferObjectRef` (reconstruction through the discovery cache), and whether
the raw response object decodes. -/
structure ConsumerItem where
  verb : String
  stage : String
  filterAccepts : Bool
  objectRef : Option AuditObjectRef
  inferResult : Option AuditObjectRef
  responseObjectDecodes : Option Bool
deriving DecidableEq

/-- Shallow embedding of `receiver.handleItem`; the result is `true` exactly
when the function reaches `recv.aggregator.Send` (an event was built and
delivered), `false` when it returns early. -/
def handleItem (m : ConsumerItem) : Bool :=
  if ¬ supportedVerbs.contains m.verb then false
  else if m.stage ≠ stageResponseComplete then false
  else if ¬ m.filterAccepts then false
  else
    let objectRef :=
      match m.objectRef with
      | some o => if o.name = "" then m.inferResult else some o
      | none => m.inferResult
    match objectRef with
    | none => false
    | some _ =>
      match m.responseObjectDecodes with
      | some false => false
      | _ => true

/-! ### Diff controller (`pkg/diff/controller/controller.go`) -/

def labelKeyRedacted : String := "kelemetry.kubewharf.io/diff-redacted"

structure Gvr where
  group : String
  version : String
  resource : String
deriving DecidableEq

/-- Fields of an `unstructured.Unstructured` object read by the controller;
the body (of arbitrary type `β`) is only passed to the structural diff. -/
structure KObject (β : Type) where
  resourceVersion : String
  deletionTimestamp : Option Int
  labels : List (String × String)
  ns : String
  name : String
  body : β

/-- The `g/v/r/ns/name` string assembled by `testRedacted`. -/
def gvrnn (gvr : Gvr) (ns name : String) : String :=
  gvr.group ++ "/" ++ gvr.version ++ "/" ++ gvr.resource ++ "/" ++ ns ++ "/" ++ name

/-- Shallow embedding of `monitor.testRedacted`; `redactMatch` stands for
`MatchString` of the compiled `--diff-controller-redact-pattern` regexp. -/
def testRedacted {β : Type} (redactMatch : String → Bool) (gvr : Gvr) (obj : KObject β) : Bool :=
  if obj.labels.any fun kv => kv.1 = labelKeyRedacted then true
  else redactMatch (gvrnn gvr obj.ns obj.name)

/-- A `diffcache.Patch` as written by `onUpdate` (the informer timestamp,
taken from the wall clock, is omitted). -/
structure StoredPatch where
  oldResourceVersion : String
  newResourceVersion : String
  redacted : Bool
  diffs : List DiffEntry
deriving DecidableEq

/-- Result of one `onUpdate` task: whether a deletion snapshot was also
emitted, and the patch stored in the diff cache (none when the resource
versions are equal). -/
structure OnUpdateResult where
  deletionSnapshot : Bool
  patch : Option StoredPatch
deriving DecidableEq

/-- Shallow embedding of `monitor.onUpdate`; `compare` stands for
`diffcmp.Compare`, the structural JSON diff of the two object bodies. -/
def onUpdate {β : Type} (redactMatch : String → Bool) (compare : β → β → List DiffEntry)
    (gvr : Gvr) (oldObj newObj : KObject β) : OnUpdateResult :=
  if oldObj.resourceVersion = newObj.resourceVersion then
    { deletionSnapshot := false, patch := none }
  else
    let snapshot := oldObj.deletionTimestamp.isNone && newObj.deletionTimestamp.isSome
    let redacted := testRedacted redactMatch gvr oldObj || testRedacted redactMatch gvr newObj
    let diffs :=
      if redacted then
        [{ jsonPath := "metadata.resourceVersion"
           oldVal := oldObj.resourceVersion
           newVal := newObj.resourceVersion }]
      else compare oldObj.body newObj.body
    { deletionSnapshot := snapshot
      patch := some
        { oldResourceVersion := oldObj.resourceVersion
          newResourceVersion := newObj.resourceVersion
          redacted := redacted
          diffs := diffs } }

/-! ### Local message queue producer (`pkg/audit/mq/local/local.go`) -/

/-- The 32-bit FNV-1 hash of `hash/fnv.New32` over a byte sequence:
multiply by the FNV prime modulo 2^32, then xor the next byte. -/
def fnv32 (bytes : List Nat) : Nat :=
  bytes.foldl (fun h b => (h * 16777619 % 2 ^ 32) ^^^ (b % 256)) 2166136261

/-- Partition selection of `localProducer.Send`: with partition-by-object
enabled and a non-nil key, the FNV-1 hash of the key modulo the partition
count; otherwise `rand.Int31n`, modelled by an arbitrary draw `randomDraw`
reduced modulo the partition count. -/
def sendPartition (partitionByObject : Bool) (numPartitions : Nat)
    (partitionKey : Option (List Nat)) (randomDraw : Nat) : Nat :=
  match partitionByObject, partitionKey with
  | true, some key => fnv32 key % numPartitions
  | _, _ => randomDraw % numPartitions

/-! ### Redirect server (`pkg/frontend/http/redirect/server.go`) -/

/-- The `/redirect` query parameters; `ts` is the outcome of
`time.Parse(time.RFC3339, ctx.Query("ts"))`, `none` standing for a parse
failure and `some t` for the parsed instant in Unix seconds. -/
structure RedirectRequest where
  cluster : String
  resource : String
  ns : String
  name : String
  ts : Option Nat
deriving DecidableEq

/-- The `spanstore.TraceQueryParameters` built by `handleGet` (the service
name, taken from the transform-config provider, is omitted). -/
structure TraceQuery where
  operationName : String
  tags : List (String × String)
  startTimeMin : Nat
  startTimeMax : Nat
deriving DecidableEq

/-- Responses of the `/redirect` handler: an error status written by the
route wrapper, the synthetic 200 empty-trace JSON, or a 302 redirect. -/
inductive RedirectResponse where
  | fail (code : Nat)
  | emptyTrace
  | redirect (path : String)
deriving DecidableEq

/-- Truncation of a Unix-seconds instant by `timestamp.Truncate(time.Minute*30)`
(the Unix epoch is a whole multiple of 30 minutes after Go's zero time). -/
def truncate30m (t : Nat) : Nat := t / 1800 * 1800

/-- ASCII lower-casing of one character (`unicode.ToLower` restricted to
ASCII). -/
def charLower (c : Char) : Char :=
  if 'A' ≤ c ∧ c ≤ 'Z' then Char.ofNat (c.toNat + 32) else c

/-- Model of `strings.ToLower`. -/
def strToLower (s : String) : String := ⟨s.data.map charLower⟩

/-- Case-insensitive cluster comparison:
`strings.EqualFold(strings.ToLower(a), strings.ToLower(b))`. -/
def strCaseEq (a b : String) : Bool := strToLower a = strToLower b

/-- The known-cluster scan over `clusterList.List()`. -/
def hasClusterIn (known : List String) (cluster : String) : Bool :=
  known.any fun knownCluster => strCaseEq knownCluster cluster

/-- The trace query built by `handleGet` for instant `t`: tags identify the
object (namespace only when non-empty), the operation name is the cluster,
and the window is the 30-minute bucket containing `t`. -/
def redirectQuery (req : RedirectRequest) (t : Nat) : TraceQuery :=
  { operationName := req.cluster
    tags := [("resource", req.resource), ("name", req.name)] ++
      (if req.ns ≠ "" then [("namespace", req.ns)] else [])
    startTimeMin := truncate30m t
    startTimeMax := truncate30m t + 1800 }

/-- Shallow embedding of `server.handleGet`; `findTraceIDs` stands for
`spanReader.FindTraceIDs` over the trace store. -/
def handleRedirectGet (known : List String)
    (findTraceIDs : TraceQuery → Except String (List String))
    (req : RedirectRequest) : RedirectResponse :=
  if req.cluster.length = 0 ∨ req.resource.length = 0 ∨ req.name.length = 0 then
    .fail 400
  else if ¬ hasClusterIn known req.cluster then
    .fail 404
  else
    match req.ts with
    | none => .fail 400
    | some t =>
      match findTraceIDs (redirectQuery req t) with
      | .error _ => .fail 500
      | .ok traceIDs =>
        if traceIDs.length > 1 then .fail 500
        else
          match traceIDs with
          | [] => .emptyTrace
          | traceId :: _ => .redirect ("/trace/" ++ traceId)

/-! ### Event informer (`handleEvent` and the ConfigMap watermark of the
event informer file) -/

/-- Outcomes of `controller.handleEvent`, one per metric error label plus
the successful send. -/
inductive EventOutcome where
  | inferTimestamp
  | beforeRestart
  | eventTooOld
  | filtered
  | invalidCluster
  | unknownGvk
  | sendError
  | sent
deriving DecidableEq

/-- One `corev1.Event` together with the verdicts of the external calls the
handler makes.  Timestamps are Unix seconds with `0` standing for the zero
time (`IsZero`). -/
structure K8sEvent where
  eventTime : Nat
  lastTimestamp : Nat
  filterAccepts : Bool
  clusterKnown : Bool
  gvkKnown : Bool
  sendOk : Bool
deriving DecidableEq

/-- The timestamp selection: `eventTime`, falling back to `lastTimestamp`
when zero. -/
def resolvedEventTime (ev : K8sEvent) : Nat :=
  if ev.eventTime ≠ 0 then ev.eventTime else ev.lastTimestamp

/-- Shallow embedding of `controller.handleEvent` for the current leader:
`lastEventTime` is the watermark loaded at startup, `now` the wall clock.
The second component is the timestamp captured by the updater closure sent
over `configMapUpdateCh`, or `none` when no update was enqueued. -/
def handleEvent (lastEventTime : Nat) (now : Nat) (ev : K8sEvent) :
    EventOutcome × Option Nat :=
  let t := resolvedEventTime ev
  if t = 0 then (.inferTimestamp, none)
  else if t < lastEventTime then (.beforeRestart, none)
  else if now - t > 300 then (.eventTooOld, none)
  else if ¬ ev.filterAccepts then (.filtered, some t)
  else if ¬ ev.clusterKnown then (.invalidCluster, some t)
  else if ¬ ev.gvkKnown then (.unknownGvk, some t)
  else if ¬ ev.sendOk then (.sendError, some t)
  else (.sent, some t)

/-- Semantics of the updater closure enqueued for timestamp `t`: the stored
ConfigMap value (parsed from RFC3339, `none` when unparseable) is replaced
by `t` exactly when it is unparseable or earlier than `t`. -/
def applyUpdater (t : Nat) (stored : Option Nat) : Option Nat :=
  match stored with
  | none => some t
  | some storedTime => if storedTime < t then some t else some storedTime

/-- Application of a queue of updaters between two sync ticks, in order. -/
def applyUpdaters (stored : Option Nat) (ts : List Nat) : Option Nat :=
  ts.foldl (fun acc t => applyUpdater t acc) stored

/-! ### Transform pipeline (`ReplaceNameVisitor` and `PruneTagsVisitor` of
the transform-step file) -/

/-- Modelled from the spec: the reserved namespace of the missing
`pkg/util/zconstants` package under which internal tags live
(`zconstants.Prefix`); `PruneTags` drops tags under it. -/
def zReservedNs : String := "trace.kelemetry.kubewharf.io/"

/-- Modelled from the spec: the display-name tag key read by `ReplaceName`
(`zconstants.SpanName`), an internal tag under the reserved namespace. -/
def zSpanName : String := zReservedNs ++ "name"

/-- A `model.KeyValue` restricted to string values. -/
structure SpanKV where
  key : String
  vStr : String
deriving DecidableEq

/-- A `model.Log`, as a list of key-value fields. -/
structure SpanLog where
  fields : List SpanKV
deriving DecidableEq

/-- A `model.Span`; times are Unix seconds. -/
structure Span where
  operationName : String
  startTime : Nat
  duration : Nat
  tags : List SpanKV
  logs : List SpanLog
deriving DecidableEq

/-- A rooted span tree (`tftree.SpanTree`): exactly one root, every other
span reached through its unique parent. -/
inductive SpanTree where
  | node (span : Span) (children : List SpanTree)

def SpanTree.rootSpan : SpanTree → Span
  | .node s _ => s

/-- Two-digit zero-padded rendering of an hour or minute component. -/
def pad2 (n : Nat) : String :=
  if n < 10 then "0" ++ toString n else toString n

/-- Rendering of an instant by `Format("15:04")` (hour and minute, UTC). -/
def formatClock (t : Nat) : String :=
  pad2 (t / 3600 % 24) ++ ":" ++ pad2 (t / 60 % 60)

/-- The time-range suffix the `ReplaceName` visitor appends to the root's
operation name. -/
def rootTimeSuffix (s : Span) : String :=
  " / " ++ formatClock s.startTime ++ ".." ++ formatClock (s.startTime + s.duration)

/-- The `Enter` of `ReplaceNameVisitor` on one span: substitute the first
display-name tag value as the operation name, then decorate the root with
the time-range suffix. -/
def replaceNameEnter (isRoot : Bool) (s : Span) : Span :=
  let s1 :=
    match s.tags.find? fun tag => tag.key = zSpanName with
    | some tag => { s with operationName := tag.vStr }
    | none => s
  if isRoot then { s1 with operationName := s1.operationName ++ rootTimeSuffix s1 } else s1

/-- Model of `strings.HasPrefix` over the character sequences. -/
def strStartsWith (s pat : String) : Bool := pat.data.isPrefixOf s.data

/-- The `removeZconstantKeys` helper: keep only tags outside the reserved
namespace. -/
def removeZKeys (tags : List SpanKV) : List SpanKV :=
  tags.filter fun tag => ! strStartsWith tag.key zReservedNs

/-- The `Enter` of `PruneTagsVisitor` on one span: drop internal tags from
the span and from every log. -/
def pruneEnter (s : Span) : Span :=
  { s with
    tags := removeZKeys s.tags
    logs := s.logs.map fun log => { log with fields := removeZKeys log.fields } }

mutual

/-- Per-span application of a visitor over a subtree whose spans are all
non-root. -/
def mapTree (f : Span → Span) : SpanTree → SpanTree
  | .node s children => .node (f s) (mapTreeList f children)

def mapTreeList (f : Span → Span) : List SpanTree → List SpanTree
  | [] => []
  | t :: ts => mapTree f t :: mapTreeList f ts

end

/-- One pre-order traversal applying a visitor's `Enter` to every span;
only the tree root is visited with `isRoot = true` (`span == tree.Root`). -/
def applyVisitor (f : Bool → Span → Span) : SpanTree → SpanTree
  | .node s children => .node (f true s) (mapTreeList (f false) children)

def replaceNameTree : SpanTree → SpanTree := applyVisitor replaceNameEnter

def pruneTagsTree : SpanTree → SpanTree := applyVisitor fun _ => pruneEnter

/-- Modelled from the spec: the configured visitor pipeline runs
`ReplaceName` first and `PruneTags` second (spec section 4.9 lists the key
visitors in this order). -/
def pipeline (t : SpanTree) : SpanTree := pruneTagsTree (replaceNameTree t)

/-- The effect on a tree of appending the time-range suffix to the root's
operation name only. -/
def addRootTimeSuffix : SpanTree → SpanTree
  | .node s children =>
    .node { s with operationName := s.operationName ++ rootTimeSuffix s } children

/-!
## Theorems
-/

/-- C1: the spec (sections 6 and 9) states that the scan endpoint reads its
limit from a query parameter named `limit`, defaulting to 100; the handler
instead reads `ctx.Query("100")`, so a request carrying `limit=5` is served
with limit 100 while the intended behavior would use 5.  The spec itself
flags the parameter name as a bug in the code. -/
theorem handleScan_limit_bug :
    handleScanLimit [("limit", "5")] = 100 ∧
      handleScanLimitIntended [("limit", "5")] = 5 ∧
      handleScanLimit [("100", "7")] = 7 := by
  decide

/-- C10: for every audit message whose response status is present with code
at least 300, `tryDecorate` performs no cache query (zero fetch calls), adds
exactly the reason/message error log followed by one error log per status
detail cause, and reports the `failedRequest` outcome. -/
theorem tryDecorate_failedRequest (cache : DiffCacheOracle) (attempts : Nat)
    (msg : Message) (st : ResponseStatus)
    (hst : msg.responseStatus = some st) (hcode : 300 ≤ st.code) :
    tryDecorate cache attempts msg =
      { outcome := cacheHitTypeError, logs := failedRequestLogs st
        tags := [], fetchCalls := 0 } := by
  have hf : isFailedRequest msg = true := by
    simp [isFailedRequest, hst, hcode]
  simp [tryDecorate, hf, hst]

/-- C10 witness: a concrete 404 message with one status-detail cause. -/
theorem tryDecorate_failedRequest_witness :
    tryDecorate emptyCache 1
      { verb := verbUpdate
        responseStatus := some
          { code := 404, reason := "NotFound", message := "pod not found"
            details := some { causes := [{ causeType := "FieldValueInvalid", message := "bad" }] } }
        objectRef := some
          { apiGroup := "", apiVersion := "v1", resource := "pods", ns := "default"
            name := "p1", resourceVersion := "5", subresource := "", uid := "u" }
        responseObject := none } =
      { outcome := cacheHitTypeError
        logs := [(logTypeRealError, "NotFound: pod not found"),
                 (logTypeRealError, "FieldValueInvalid: bad")]
        tags := [], fetchCalls := 0 } := by
  rw [tryDecorate_failedRequest emptyCache 1 _ _ rfl (by decide)]
  decide

/-- C2 counterexample: a no-op update message (`oldRv == responseRv`) is
given the outcome `noopUpdate`, not `sameRv` (the `sameRv` branch of the
source is unreachable), and a verbose "No-op update" log entry is appended
to the event, contradicting the claim that no log entries are added. -/
theorem sameRv_claim_counterexample :
    (tryDecorate emptyCache 3
        { verb := verbUpdate
          responseStatus := some { code := 200, reason := "", message := "", details := none }
          objectRef := some
            { apiGroup := "", apiVersion := "v1", resource := "pods", ns := "default"
              name := "p1", resourceVersion := "5", subresource := "", uid := "u" }
          responseObject := some (.objectMeta "5") }).outcome = cacheHitTypeNoop ∧
      cacheHitTypeNoop ≠ cacheHitTypeSameRv ∧
      (tryDecorate emptyCache 3
        { verb := verbUpdate
          responseStatus := some { code := 200, reason := "", message := "", details := none }
          objectRef := some
            { apiGroup := "", apiVersion := "v1", resource := "pods", ns := "default"
              name := "p1", resourceVersion := "5", subresource := "", uid := "u" }
          responseObject := some (.objectMeta "5") }).logs ≠ [] := by
  decide

/-- C2 (amended): for every update or patch audit message that is not a
failed request, whose response object decodes to an object whose resource
version equals the objectRef resource version, `tryDecorate` returns
immediately with outcome `noopUpdate`, performs no cache fetch, and appends
exactly one verbose "No-op update" log entry. -/
theorem tryDecorate_noop_amended (cache : DiffCacheOracle) (attempts : Nat)
    (msg : Message) (oref : AuditObjectRef)
    (hverb : msg.verb = verbUpdate ∨ msg.verb = verbPatch)
    (hok : isFailedRequest msg = false)
    (href : msg.objectRef = some oref)
    (hresp : msg.responseObject = some (.objectMeta oref.resourceVersion)) :
    tryDecorate cache attempts msg =
      { outcome := cacheHitTypeNoop, logs := [(logTypeRealVerbose, "No-op update")]
        tags := [], fetchCalls := 0 } := by
  simp only [tryDecorate, hok, Bool.false_eq_true, if_false, href, hresp]
  simp [hverb]

/-- C2 witness for the amended theorem: a concrete same-rv update. -/
theorem tryDecorate_noop_amended_witness :
    tryDecorate emptyCache 2
      { verb := verbUpdate
        responseStatus := none
        objectRef := some
          { apiGroup := "apps", apiVersion := "v1", resource := "deployments", ns := "ns"
            name := "d1", resourceVersion := "41", subresource := "", uid := "u1" }
        responseObject := some (.objectMeta "41") } =
      { outcome := cacheHitTypeNoop, logs := [(logTypeRealVerbose, "No-op update")]
        tags := [], fetchCalls := 0 } :=
  tryDecorate_noop_amended emptyCache 2 _ _ (Or.inl rfl) rfl rfl rfl

/-- C4: every patch-verb audit message that passes the earlier checks (not
a failed request, objectRef present, response object not undecodable, not a
same-rv no-op) is excluded by `decoratesResource` without any cache query:
`tryDecorate` performs zero fetch calls and reports the `filtered`
outcome. -/
theorem tryDecorate_patch_filtered (cache : DiffCacheOracle) (attempts : Nat)
    (msg : Message) (oref : AuditObjectRef)
    (hverb : msg.verb = verbPatch)
    (hok : isFailedRequest msg = false)
    (href : msg.objectRef = some oref)
    (hdec : msg.responseObject ≠ some .undecodable)
    (hnoop : ∀ rv, msg.responseObject = some (.objectMeta rv) → oref.resourceVersion ≠ rv) :
    tryDecorate cache attempts msg =
      { outcome := cacheHitTypeFiltered, logs := [], tags := [], fetchCalls := 0 } := by
  have hpatch : decoratesResource msg = false := by
    simp [decoratesResource, hverb, verbPatch]
  match hro : msg.responseObject with
  | none =>
    simp [tryDecorate, hok, href, hro, hpatch, hverb]
  | some .undecodable => exact absurd hro hdec
  | some .nullObject =>
    simp [tryDecorate, hok, href, hro, hpatch, hverb]
  | some (.objectMeta rv) =>
    have hne : oref.resourceVersion ≠ rv := hnoop rv hro
    simp [tryDecorate, hok, href, hro, hpatch, hverb, hne]

/-- C4 witness: a concrete patch message with distinct resource versions. -/
theorem tryDecorate_patch_filtered_witness :
    tryDecorate emptyCache 4
      { verb := verbPatch
        responseStatus := some { code := 200, reason := "", message := "", details := none }
        objectRef := some
          { apiGroup := "", apiVersion := "v1", resource := "pods", ns := "default"
            name := "p1", resourceVersion := "7", subresource := "", uid := "u" }
        responseObject := some (.objectMeta "8") } =
      { outcome := cacheHitTypeFiltered, logs := [], tags := [], fetchCalls := 0 } :=
  tryDecorate_patch_filtered emptyCache 4 _ _ rfl rfl rfl (by decide)
    (fun rv h => by
      injection h with h1
      injection h1 with h2
      subst h2
      decide)

/-- C5: every consumed audit message whose stage is not `ResponseComplete`,
or whose verb is outside the supported set, is rejected by `handleItem`
before an event is built: `Aggregator.Send` is never reached. -/
theorem handleItem_rejects (m : ConsumerItem)
    (h : m.stage ≠ stageResponseComplete ∨ ¬ supportedVerbs.contains m.verb) :
    handleItem m = false := by
  unfold handleItem
  split
  · rfl
  · next hcont =>
    split
    · rfl
    · next hstage =>
      exfalso
      rcases h with h' | h'
      · exact hstage h'
      · exact h' (not_not.mp hcont)

/-- C5 witness: a concrete message at the `RequestReceived` stage. -/
theorem handleItem_rejects_witness :
    handleItem
      { verb := verbUpdate, stage := "RequestReceived", filterAccepts := true
        objectRef := some
          { apiGroup := "", apiVersion := "v1", resource := "pods", ns := "default"
            name := "p1", resourceVersion := "5", subresource := "", uid := "u" }
        inferResult := none, responseObjectDecodes := some true } = false :=
  handleItem_rejects _ (Or.inl (by decide))

/-- C9: with partition-by-object enabled and a non-nil partition key, the
partition chosen by the local producer's `Send` is a deterministic function
of the key (independent of the random draw) and always lies in
`[0, numPartitions)`. -/
theorem send_partition_deterministic (numPartitions : Nat) (hn : 0 < numPartitions)
    (key : List Nat) (draw₁ draw₂ : Nat) :
    sendPartition true numPartitions (some key) draw₁ =
        sendPartition true numPartitions (some key) draw₂ ∧
      sendPartition true numPartitions (some key) draw₁ < numPartitions := by
  refine ⟨rfl, ?_⟩
  exact Nat.mod_lt _ hn

/-- C9 witness: a concrete key over 8 partitions with two distinct draws. -/
theorem send_partition_deterministic_witness :
    sendPartition true 8 (some [99, 100, 101]) 0 = sendPartition true 8 (some [99, 100, 101]) 5 ∧
      sendPartition true 8 (some [99, 100, 101]) 0 < 8 :=
  send_partition_deterministic 8 (by decide) [99, 100, 101] 0 5

/-- C6: in `onUpdate` with distinct resource versions, when either object
carries the redaction label or its `g/v/r/ns/name` string matches the
redaction regexp, the stored patch is redacted and its diff list is exactly
the single `metadata.resourceVersion` entry; otherwise it is not redacted
and the diff list is the structural JSON diff of the two bodies. -/
theorem onUpdate_redaction {β : Type} (redactMatch : String → Bool)
    (compare : β → β → List DiffEntry) (gvr : Gvr) (oldObj newObj : KObject β)
    (hrv : oldObj.resourceVersion ≠ newObj.resourceVersion) :
    (onUpdate redactMatch compare gvr oldObj newObj).patch =
      some
        { oldResourceVersion := oldObj.resourceVersion
          newResourceVersion := newObj.resourceVersion
          redacted := testRedacted redactMatch gvr oldObj || testRedacted redactMatch gvr newObj
          diffs :=
            if testRedacted redactMatch gvr oldObj || testRedacted redactMatch gvr newObj then
              [{ jsonPath := "metadata.resourceVersion"
                 oldVal := oldObj.resourceVersion
                 newVal := newObj.resourceVersion }]
            else compare oldObj.body newObj.body } := by
  simp [onUpdate, hrv]

/-- C6 witness: a labelled old object forces a redacted single-entry patch. -/
theorem onUpdate_redaction_witness :
    (onUpdate (β := Unit) (fun _ => false) (fun _ _ => [])
        { group := "", version := "v1", resource := "secrets" }
        { resourceVersion := "1", deletionTimestamp := none
          labels := [(labelKeyRedacted, "")], ns := "ns", name := "s1", body := () }
        { resourceVersion := "2", deletionTimestamp := none
          labels := [(labelKeyRedacted, "")], ns := "ns", name := "s1", body := () }).patch =
      some
        { oldResourceVersion := "1", newResourceVersion := "2", redacted := true
          diffs := [{ jsonPath := "metadata.resourceVersion", oldVal := "1", newVal := "2" }] } := by
  rw [onUpdate_redaction (β := Unit) (fun _ => false) (fun _ _ => []) _ _ _ (by decide)]
  decide

/-- C7 counterexample: with an unknown cluster and an unparseable `ts`, the
handler responds 404 (the unknown-cluster check precedes the timestamp
parse), not 400 as the claim requires for every unparseable `ts`. -/
theorem handleRedirectGet_counterexample :
    handleRedirectGet ["tracetest"] (fun _ => .ok [])
        { cluster := "other", resource := "pods", ns := "", name := "p1", ts := none } =
        .fail 404 ∧
      (404 : Nat) ≠ 400 := by
  decide

/-- C7 (amended): empty cluster/resource/name yields 400; otherwise an
unknown cluster yields 404; with a known cluster an unparseable `ts` yields
400; with a parseable `ts` the handler queries the trace store over the
30-minute bucket `[truncate(ts, 30m), truncate(ts, 30m) + 30m)` and responds
500 on error or multiple matches, the synthetic empty trace on zero matches,
and a 302 redirect to `/trace/<id>` on exactly one match. -/
theorem handleRedirectGet_amended (known : List String)
    (findTraceIDs : TraceQuery → Except String (List String)) (req : RedirectRequest) :
    ((req.cluster.length = 0 ∨ req.resource.length = 0 ∨ req.name.length = 0) →
        handleRedirectGet known findTraceIDs req = .fail 400) ∧
      (¬ (req.cluster.length = 0 ∨ req.resource.length = 0 ∨ req.name.length = 0) →
        hasClusterIn known req.cluster = false →
        handleRedirectGet known findTraceIDs req = .fail 404) ∧
      (¬ (req.cluster.length = 0 ∨ req.resource.length = 0 ∨ req.name.length = 0) →
        hasClusterIn known req.cluster = true → req.ts = none →
        handleRedirectGet known findTraceIDs req = .fail 400) ∧
      (∀ t, ¬ (req.cluster.length = 0 ∨ req.resource.length = 0 ∨ req.name.length = 0) →
        hasClusterIn known req.cluster = true → req.ts = some t →
        handleRedirectGet known findTraceIDs req =
          match findTraceIDs (redirectQuery req t) with
          | .error _ => .fail 500
          | .ok traceIDs =>
            if traceIDs.length > 1 then .fail 500
            else
              match traceIDs with
              | [] => .emptyTrace
              | traceId :: _ => .redirect ("/trace/" ++ traceId)) := by
  refine ⟨fun hempty => ?_, fun hempty hluster => ?_, fun hempty hcluster hts => ?_,
    fun t hempty hcluster hts => ?_⟩
  · simp [handleRedirectGet, hempty]
  · simp [handleRedirectGet, hempty, hluster]
  · simp [handleRedirectGet, hempty, hcluster, hts]
  · simp [handleRedirectGet, hempty, hcluster, hts]

theorem applyUpdater_some (t storedTime : Nat) :
    applyUpdater t (some storedTime) = some (max storedTime t) := by
  show (if storedTime < t then some t else some storedTime) = _
  rcases Nat.lt_or_ge storedTime t with h | h
  · rw [if_pos h, Nat.max_eq_right (Nat.le_of_lt h)]
  · rw [if_neg (Nat.not_lt.mpr h), Nat.max_eq_left h]

theorem applyUpdaters_some (ts : List Nat) : ∀ storedTime : Nat,
    applyUpdaters (some storedTime) ts = some (ts.foldl max storedTime) := by
  induction ts with
  | nil => intro s; rfl
  | cons t ts ih =>
    intro s
    show applyUpdaters (applyUpdater t (some s)) ts = _
    rw [applyUpdater_some, ih]
    rfl

theorem le_foldl_max (ts : List Nat) : ∀ s : Nat, s ≤ ts.foldl max s := by
  induction ts with
  | nil => intro s; exact Nat.le_refl s
  | cons t ts ih =>
    intro s
    exact le_trans (Nat.le_max_left s t) (ih (max s t))

/-- C8: the event-informer watermark is monotone.  (1) An event whose
resolved timestamp is non-zero but earlier than the watermark loaded at
startup is dropped with outcome `BeforeRestart` and enqueues no updater.
(2) An event passing the timestamp checks enqueues the updater for its
timestamp.  (3-5) The updater for `t` overwrites the stored value exactly
when it is unparseable or earlier than `t`.  (6) Applying any updater queue
never decreases a parseable watermark.  (7) After a queue containing the
updater for `t` is applied, the watermark is parseable and no lower than
`t`. -/
theorem watermark_monotone :
    (∀ lastEventTime now ev, resolvedEventTime ev ≠ 0 →
        resolvedEventTime ev < lastEventTime →
        handleEvent lastEventTime now ev = (.beforeRestart, none)) ∧
      (∀ lastEventTime now ev, resolvedEventTime ev ≠ 0 →
        ¬ resolvedEventTime ev < lastEventTime →
        now - resolvedEventTime ev ≤ 300 →
        (handleEvent lastEventTime now ev).2 = some (resolvedEventTime ev)) ∧
      (∀ t, applyUpdater t none = some t) ∧
      (∀ t storedTime, storedTime < t → applyUpdater t (some storedTime) = some t) ∧
      (∀ t storedTime, ¬ storedTime < t → applyUpdater t (some storedTime) = some storedTime) ∧
      (∀ storedTime ts, ∃ r, applyUpdaters (some storedTime) ts = some r ∧ storedTime ≤ r) ∧
      (∀ stored ts₁ t ts₂, ∃ r, applyUpdaters stored (ts₁ ++ t :: ts₂) = some r ∧ t ≤ r) := by
  refine ⟨?_, ?_, fun t => rfl, ?_, ?_, ?_, ?_⟩
  · intro lastEventTime now ev h0 hlt
    simp [handleEvent, h0, hlt]
  · intro lastEventTime now ev h0 hge h300
    simp only [handleEvent]
    rw [if_neg h0, if_neg hge, if_neg (by omega)]
    by_cases h1 : ev.filterAccepts <;> by_cases h2 : ev.clusterKnown <;>
      by_cases h3 : ev.gvkKnown <;> by_cases h4 : ev.sendOk <;>
      simp [h1, h2, h3, h4]
  · intro t storedTime h
    rw [applyUpdater_some, Nat.max_eq_right (Nat.le_of_lt h)]
  · intro t storedTime h
    rw [applyUpdater_some, Nat.max_eq_left (Nat.not_lt.mp h)]
  · intro storedTime ts
    exact ⟨ts.foldl max storedTime, applyUpdaters_some ts storedTime, le_foldl_max ts storedTime⟩
  · intro stored ts₁ t ts₂
    have hsplit : applyUpdaters stored (ts₁ ++ t :: ts₂) =
        applyUpdaters (applyUpdater t (applyUpdaters stored ts₁)) ts₂ := by
      simp [applyUpdaters, List.foldl_append]
    rcases hmid : applyUpdaters stored ts₁ with _ | s
    · refine ⟨ts₂.foldl max t, ?_, le_foldl_max ts₂ t⟩
      rw [hsplit, hmid]
      exact applyUpdaters_some ts₂ t
    · refine ⟨ts₂.foldl max (max s t), ?_, ?_⟩
      · rw [hsplit, hmid, applyUpdater_some]
        exact applyUpdaters_some ts₂ (max s t)
      · exact le_trans (Nat.le_max_right s t) (le_foldl_max ts₂ (max s t))

/-- C8 witness: an event at t=50 against watermark 100 is dropped with
`BeforeRestart`, and a concrete updater queue leaves the stored value no
lower than where it started. -/
theorem watermark_monotone_witness :
    handleEvent 100 150
        { eventTime := 50, lastTimestamp := 0, filterAccepts := true
          clusterKnown := true, gvkKnown := true, sendOk := true } =
        (.beforeRestart, none) ∧
      ∃ r, applyUpdaters (some 40) [10, 70, 20] = some r ∧ 40 ≤ r := by
  refine ⟨watermark_monotone.1 100 150 _ (by decide) (by decide), ?_⟩
  exact watermark_monotone.2.2.2.2.2.1 40 [10, 70, 20]

theorem zSpanName_reserved : strStartsWith zSpanName zReservedNs = true := by
  decide

theorem find_zSpanName_removeZKeys (tags : List SpanKV) :
    (removeZKeys tags).find? (fun tag => tag.key = zSpanName) = none := by
  rw [List.find?_eq_none]
  intro tag htag
  simp only [removeZKeys, List.mem_filter] at htag
  intro hkey
  have heq : tag.key = zSpanName := of_decide_eq_true hkey
  have hkeep := htag.2
  rw [heq] at hkeep
  rw [zSpanName_reserved] at hkeep
  simp at hkeep

theorem removeZKeys_idem (tags : List SpanKV) :
    removeZKeys (removeZKeys tags) = removeZKeys tags := by
  simp [removeZKeys, List.filter_filter]

theorem pruneEnter_idem (s : Span) : pruneEnter (pruneEnter s) = pruneEnter s := by
  simp only [pruneEnter, List.map_map]
  congr 1
  · exact removeZKeys_idem s.tags
  · refine List.map_congr_left fun log _ => ?_
    show SpanLog.mk (removeZKeys (removeZKeys log.fields)) = SpanLog.mk (removeZKeys log.fields)
    rw [removeZKeys_idem]

theorem pruneEnter_opName (s : Span) (x : String) :
    pruneEnter { s with operationName := x } = { pruneEnter s with operationName := x } := rfl

theorem replaceNameEnter_false_of_find_none (s : Span)
    (h : s.tags.find? (fun tag => tag.key = zSpanName) = none) :
    replaceNameEnter false s = s := by
  unfold replaceNameEnter
  rw [h]
  exact rfl

theorem replaceNameEnter_true_of_find_none (s : Span)
    (h : s.tags.find? (fun tag => tag.key = zSpanName) = none) :
    replaceNameEnter true s =
      { s with operationName := s.operationName ++ rootTimeSuffix s } := by
  unfold replaceNameEnter
  rw [h]
  exact rfl

theorem replaceNameEnter_false_pruned (s : Span) :
    replaceNameEnter false (pruneEnter s) = pruneEnter s :=
  replaceNameEnter_false_of_find_none _ (find_zSpanName_removeZKeys s.tags)

mutual

theorem mapTree_comp (f g : Span → Span) : (t : SpanTree) →
    mapTree f (mapTree g t) = mapTree (fun s => f (g s)) t
  | .node s children => by
    rw [mapTree, mapTree, mapTree, mapTreeList_comp f g children]

theorem mapTreeList_comp (f g : Span → Span) : (l : List SpanTree) →
    mapTreeList f (mapTreeList g l) = mapTreeList (fun s => f (g s)) l
  | [] => rfl
  | t :: ts => by
    rw [mapTreeList, mapTreeList, mapTreeList, mapTree_comp f g t, mapTreeList_comp f g ts]

end

mutual

theorem mapTree_congr {f g : Span → Span} (h : ∀ s, f s = g s) : (t : SpanTree) →
    mapTree f t = mapTree g t
  | .node s children => by
    rw [mapTree, mapTree, h s, mapTreeList_congr h children]

theorem mapTreeList_congr {f g : Span → Span} (h : ∀ s, f s = g s) : (l : List SpanTree) →
    mapTreeList f l = mapTreeList g l
  | [] => rfl
  | t :: ts => by
    rw [mapTreeList, mapTreeList, mapTree_congr h t, mapTreeList_congr h ts]

end

/-- C3 counterexample: on a single-span tree with no tags, applying the
pipeline twice appends the root time-range suffix a second time, so the
pipeline is not idempotent. -/
theorem pipeline_not_idempotent :
    pipeline (pipeline
        (.node { operationName := "op", startTime := 0, duration := 0, tags := [], logs := [] } [])) ≠
      pipeline
        (.node { operationName := "op", startTime := 0, duration := 0, tags := [], logs := [] } []) := by
  intro h
  have h2 := congrArg (fun t => t.rootSpan.operationName) h
  have h3 : (pipeline (pipeline
      (.node { operationName := "op", startTime := 0, duration := 0, tags := [], logs := [] }
        []))).rootSpan.operationName ≠
      (pipeline
        (.node { operationName := "op", startTime := 0, duration := 0, tags := [], logs := [] }
          [])).rootSpan.operationName := by
    decide
  exact h3 h2

/-- C3 (amended): applying the pipeline twice yields the same output as
applying it once except at the root span, whose operation name receives one
further time-range suffix; in particular every tag, log and non-root
operation name is idempotent under the pipeline. -/
theorem pipeline_pipeline (t : SpanTree) :
    pipeline (pipeline t) = addRootTimeSuffix (pipeline t) := by
  rcases t with ⟨s, children⟩
  simp only [pipeline, replaceNameTree, pruneTagsTree, applyVisitor, addRootTimeSuffix]
  congr 1
  · have h1 : replaceNameEnter true (pruneEnter (replaceNameEnter true s)) =
        { pruneEnter (replaceNameEnter true s) with
            operationName := (pruneEnter (replaceNameEnter true s)).operationName ++
              rootTimeSuffix (pruneEnter (replaceNameEnter true s)) } :=
      replaceNameEnter_true_of_find_none _ (find_zSpanName_removeZKeys _)
    rw [h1, pruneEnter_opName, pruneEnter_idem]
  · simp only [mapTreeList_comp]
    exact mapTreeList_congr
      (fun sp => by rw [replaceNameEnter_false_pruned, pruneEnter_idem]) children

/-- C7 witness for the amended theorem: one match in the bucket containing
`ts = 3700s` redirects to its trace. -/
theorem handleRedirectGet_amended_witness :
    handleRedirectGet ["tracetest"]
        (fun q => if q.startTimeMin = 3600 ∧ q.startTimeMax = 5400 then .ok ["abc123"] else .ok [])
        { cluster := "tracetest", resource := "pods", ns := "default", name := "p1"
          ts := some 3700 } =
      .redirect "/trace/abc123" := by
  rw [(handleRedirectGet_amended ["tracetest"]
      (fun q => if q.startTimeMin = 3600 ∧ q.startTimeMax = 5400 then .ok ["abc123"] else .ok [])
      { cluster := "tracetest", resource := "pods", ns := "default", name := "p1"
        ts := some 3700 }).2.2.2 3700 (by decide) (by decide) rfl]
  decide

end Kelemetry
